import Mathlib

/-!
Invoice-Processing-Workflow: verification of the spec against the code
=====================================================================

A shallow embedding, in Lean 4, of the core of the
`Invoice-Processing-Workflow` backend (`src/backend/src`), together with
theorems settling the frozen claims about it.

Conventions of the embedding:
* Python floats are modelled as exact rationals (`ℚ`); `round(x, 3)` is
  modelled by `round3` below (the same model is used on both the code side
  and the spec side of every comparison, so no claim depends on the exact
  tie-breaking rule of float rounding).
* Python dict lookups `state.get(key, default)` on workflow-state keys are
  modelled with `Option`: the initial LangGraph state assigns every key
  (with value `None`), so `get` returns the stored value, `None` included.
  A comparison of `None` with a number raises `TypeError` in Python; where
  that can happen (the `should_checkpoint` routing predicate) the model
  returns `Except.error`.
* Free-text log messages, timestamps, uuids and LLM analysis payloads are
  elided: no claim mentions their contents.  Event traces keep only
  `stage_update` and `workflow_complete` events (`log` and `tool_call`
  events are emitted strictly between a stage's `started` and
  `completed`/terminal events, so eliding them changes no claim).
-/

namespace InvoiceWorkflow

/-- One invoice or purchase-order line item (`line_items` entries).
Only the fields read by `MatcherAgent._compute_match` are kept. -/
structure LineItem where
  qty : ℚ
  unit_price : ℚ
  deriving DecidableEq

/-- The invoice payload fields read by the matcher. -/
structure Invoice where
  amount : ℚ
  line_items : List LineItem
  deriving DecidableEq

/-- A purchase order as returned by RETRIEVE (`matched_pos` entries). -/
structure PurchaseOrder where
  total_amount : ℚ
  line_items : List LineItem
  deriving DecidableEq

/-- Python `round(x, 3)`, modelled over `ℚ` (round to nearest thousandth).
Used identically by the code-side and the spec-side definitions. -/
def round3 (q : ℚ) : ℚ := (round (q * 1000) : ℤ) / 1000

/-! ## MATCH_TWO_WAY: `MatcherAgent._compute_match` (code side)

Translated from `src/backend/src/agents/matcher_agent.py`, lines 142-315.
The evidence dictionary (`matched_fields`, `line_item_details`, ...) is
elided: the claims are about the score. -/

/-- Amount component: `if po_amount > 0: amount_diff_pct = abs(...)/po_amount*100;
1.0 / 0.5 / 0.0 by tolerance; else 0.0` (the `else` branch leaves
`amount_score = 0.0`). -/
def amount_score (t invoiceAmount poAmount : ℚ) : ℚ :=
  if poAmount > 0 then
    let amount_diff_pct := |invoiceAmount - poAmount| / poAmount * 100
    if amount_diff_pct ≤ t then 1
    else if amount_diff_pct ≤ t * 2 then 1/2
    else 0
  else 0

/-- The quantity loop: `for i, inv_item in enumerate(invoice_items)`, with
`po_item = po_items[i] if i < len(po_items) else None`; a line counts when
`qty_diff_pct <= tolerance`, where `qty_diff_pct = abs(inv_qty - po_qty)/po_qty*100
if po_qty > 0 else 100`; invoice lines beyond the PO list add nothing. -/
def qty_match_count (t : ℚ) : List LineItem → List LineItem → Nat
  | [], _ => 0
  | _ :: _, [] => 0
  | invItem :: invRest, poItem :: poRest =>
      (if (if poItem.qty > 0 then |invItem.qty - poItem.qty| / poItem.qty * 100 else 100) ≤ t
       then 1 else 0) + qty_match_count t invRest poRest

/-- Quantity component: when both sides have line items, `qty_matches / total_items`
with `total_items = max(len(invoice_items), len(po_items))`; otherwise the
count check `0.8 / 0.0`. -/
def qty_score (t : ℚ) (invoiceItems poItems : List LineItem) : ℚ :=
  if invoiceItems ≠ [] ∧ poItems ≠ [] then
    (qty_match_count t invoiceItems poItems : ℚ) /
      (max invoiceItems.length poItems.length : ℚ)
  else
    if invoiceItems.length = poItems.length then 8/10 else 0

/-- The unit-price loop, same shape as the quantity loop over `unit_price`. -/
def price_match_count (t : ℚ) : List LineItem → List LineItem → Nat
  | [], _ => 0
  | _ :: _, [] => 0
  | invItem :: invRest, poItem :: poRest =>
      (if (if poItem.unit_price > 0 then
             |invItem.unit_price - poItem.unit_price| / poItem.unit_price * 100
           else 100) ≤ t
       then 1 else 0) + price_match_count t invRest poRest

/-- Price component: `price_matches / total_items` when both sides have line
items, else the neutral `0.5`. -/
def price_score (t : ℚ) (invoiceItems poItems : List LineItem) : ℚ :=
  if invoiceItems ≠ [] ∧ poItems ≠ [] then
    (price_match_count t invoiceItems poItems : ℚ) /
      (max invoiceItems.length poItems.length : ℚ)
  else 1/2

/-- The score of `MatcherAgent._compute_match`: `0.0` with no PO, else the
weighted sum over the first PO, `round`ed to three decimals. -/
def compute_match_score (t : ℚ) (invoice : Invoice) (pos : List PurchaseOrder) : ℚ :=
  match pos with
  | [] => 0
  | po :: _ =>
      let amountScore := amount_score t invoice.amount po.total_amount
      let qtyScore := qty_score t invoice.line_items po.line_items
      let priceScore := price_score t invoice.line_items po.line_items
      round3 (amountScore * 0.40 + qtyScore * 0.35 + priceScore * 0.25)

/-! ## MATCH_TWO_WAY: the spec's reference definition (§4.2 of the spec)

Written from the spec's words, to be compared with `compute_match_score`. -/

/-- Spec: `d = |I.amount − P.total_amount| / P.total_amount × 100`; `d ≤ t → 1.0`,
`d ≤ 2t → 0.5`, else `0.0`; `P.total_amount ≤ 0 → 0.0`. -/
def spec_amount_score (t : ℚ) (I : Invoice) (P : PurchaseOrder) : ℚ :=
  if P.total_amount ≤ 0 then 0
  else
    let d := |I.amount - P.total_amount| / P.total_amount * 100
    if d ≤ t then 1 else if d ≤ 2 * t then 1/2 else 0

/-- Spec: for each index `i < |I.line_items|`, `q_d = |I_i.qty − P_i.qty| / P_i.qty × 100`
(`100` if `P_i.qty ≤ 0`); a line matches when `q_d ≤ t`.  An index with no
corresponding PO line has no computable `q_d` and so never matches. -/
def spec_qty_matches (t : ℚ) (I : Invoice) (P : PurchaseOrder) : Nat :=
  (List.range I.line_items.length).countP fun i =>
    match I.line_items[i]?, P.line_items[i]? with
    | some a, some p =>
        decide ((if p.qty ≤ 0 then 100 else |a.qty - p.qty| / p.qty * 100) ≤ t)
    | _, _ => false

/-- Spec: `n = max(|I.line_items|, |P.line_items|)`, score = matches/n; if either
side has no line items: `0.8` when the counts are equal, otherwise `0.0`. -/
def spec_qty_score (t : ℚ) (I : Invoice) (P : PurchaseOrder) : ℚ :=
  if I.line_items = [] ∨ P.line_items = [] then
    if I.line_items.length = P.line_items.length then 8/10 else 0
  else
    (spec_qty_matches t I P : ℚ) / (max I.line_items.length P.line_items.length : ℚ)

/-- Spec: the price form of `spec_qty_matches`, over `unit_price`. -/
def spec_price_matches (t : ℚ) (I : Invoice) (P : PurchaseOrder) : Nat :=
  (List.range I.line_items.length).countP fun i =>
    match I.line_items[i]?, P.line_items[i]? with
    | some a, some p =>
        decide ((if p.unit_price ≤ 0 then 100
                 else |a.unit_price - p.unit_price| / p.unit_price * 100) ≤ t)
    | _, _ => false

/-- Spec: price score, with the neutral `0.5` when either side is empty. -/
def spec_price_score (t : ℚ) (I : Invoice) (P : PurchaseOrder) : ℚ :=
  if I.line_items = [] ∨ P.line_items = [] then 1/2
  else
    (spec_price_matches t I P : ℚ) / (max I.line_items.length P.line_items.length : ℚ)

/-- Spec: `Final = amount·0.40 + qty·0.35 + price·0.25`, rounded to three
decimals, computed against the first PO `P`. -/
def spec_match_score (t : ℚ) (I : Invoice) (P : PurchaseOrder) : ℚ :=
  round3 (spec_amount_score t I P * 0.40 + spec_qty_score t I P * 0.35 +
    spec_price_score t I P * 0.25)

/-! ### C1 supporting lemmas -/

/-- Positional pairwise count, the common combinatorial core of both loop
translations and both index-based spec counts. -/
def pairMatchCount (f : LineItem → LineItem → Bool) : List LineItem → List LineItem → Nat
  | [], _ => 0
  | _ :: _, [] => 0
  | x :: xs, y :: ys => (if f x y then 1 else 0) + pairMatchCount f xs ys

theorem countP_range_eq_pairMatchCount (f : LineItem → LineItem → Bool)
    (xs ys : List LineItem) :
    ((List.range xs.length).countP fun i =>
      match xs[i]?, ys[i]? with
      | some a, some p => f a p
      | _, _ => false) = pairMatchCount f xs ys := by
  induction xs generalizing ys with
  | nil => simp [pairMatchCount]
  | cons a xs ih =>
    cases ys with
    | nil =>
      rw [pairMatchCount]
      refine List.countP_eq_zero.2 ?_
      intro i _
      cases h : (a :: xs)[i]? <;> simp [h]
    | cons b ys =>
      rw [pairMatchCount, ← ih ys, List.length_cons, List.range_succ_eq_map,
        List.countP_cons, List.countP_map]
      have hcong : List.countP ((fun i =>
          match (a :: xs)[i]?, (b :: ys)[i]? with
          | some a', some p => f a' p
          | _, _ => false) ∘ Nat.succ) (List.range xs.length)
          = List.countP (fun i =>
          match xs[i]?, ys[i]? with
          | some a', some p => f a' p
          | _, _ => false) (List.range xs.length) := by
        refine List.countP_congr ?_
        intro i _
        simp [Function.comp]
      rw [hcong]
      have h0 : (match (a :: xs)[0]?, (b :: ys)[0]? with
          | some a', some p => f a' p
          | _, _ => false) = f a b := by simp
      rw [h0]
      cases f a b <;> simp [Nat.add_comm]

theorem qty_match_count_eq_pair (t : ℚ) (xs ys : List LineItem) :
    qty_match_count t xs ys = pairMatchCount
      (fun a p => decide ((if p.qty ≤ 0 then 100 else |a.qty - p.qty| / p.qty * 100) ≤ t))
      xs ys := by
  induction xs generalizing ys with
  | nil => cases ys <;> rfl
  | cons a xs ih =>
    cases ys with
    | nil => rfl
    | cons b ys =>
      rw [qty_match_count, pairMatchCount, ih ys]
      rcases le_or_lt b.qty 0 with hb | hb
      · rw [if_pos hb, if_neg (not_lt.2 hb)]
        simp
      · rw [if_neg (not_le.2 hb), if_pos hb]
        simp

theorem price_match_count_eq_pair (t : ℚ) (xs ys : List LineItem) :
    price_match_count t xs ys = pairMatchCount
      (fun a p => decide ((if p.unit_price ≤ 0 then 100
        else |a.unit_price - p.unit_price| / p.unit_price * 100) ≤ t))
      xs ys := by
  induction xs generalizing ys with
  | nil => cases ys <;> rfl
  | cons a xs ih =>
    cases ys with
    | nil => rfl
    | cons b ys =>
      rw [price_match_count, pairMatchCount, ih ys]
      rcases le_or_lt b.unit_price 0 with hb | hb
      · rw [if_pos hb, if_neg (not_lt.2 hb)]
        simp
      · rw [if_neg (not_le.2 hb), if_pos hb]
        simp

theorem amount_score_eq_spec (t : ℚ) (I : Invoice) (P : PurchaseOrder) :
    amount_score t I.amount P.total_amount = spec_amount_score t I P := by
  unfold amount_score spec_amount_score
  rcases le_or_lt P.total_amount 0 with h | h
  · rw [if_neg (not_lt.2 h), if_pos h]
  · rw [if_pos h, if_neg (not_le.2 h)]
    simp only [two_mul, mul_two]

theorem qty_score_eq_spec (t : ℚ) (I : Invoice) (P : PurchaseOrder) :
    qty_score t I.line_items P.line_items = spec_qty_score t I P := by
  unfold qty_score spec_qty_score
  by_cases h : I.line_items = [] ∨ P.line_items = []
  · rw [if_neg (by tauto), if_pos h]
  · push_neg at h
    rw [if_pos h, if_neg (by tauto), spec_qty_matches,
      countP_range_eq_pairMatchCount, qty_match_count_eq_pair]

theorem price_score_eq_spec (t : ℚ) (I : Invoice) (P : PurchaseOrder) :
    price_score t I.line_items P.line_items = spec_price_score t I P := by
  unfold price_score spec_price_score
  by_cases h : I.line_items = [] ∨ P.line_items = []
  · rw [if_neg (by tauto), if_pos h]
  · push_neg at h
    rw [if_pos h, if_neg (by tauto), spec_price_matches,
      countP_range_eq_pairMatchCount, price_match_count_eq_pair]

/-- Claim C1. For every invoice, every tolerance, and every non-empty
`matched_pos` list, the locally computed match score of MATCH_TWO_WAY
(`MatcherAgent._compute_match`, score component) equals the spec's reference
definition: amount score 1.0 / 0.5 / 0.0 by tolerance bands (0.0 for a
non-positive PO amount), quantity score = matching-lines / max line count
with the count-based 0.8/0.0 rule on empty sides, price score of the same
per-line form with neutral 0.5 on empty sides, and the final score
`amount·0.40 + qty·0.35 + price·0.25` rounded to three decimals. -/
theorem compute_match_score_eq_spec (t : ℚ) (I : Invoice) (P : PurchaseOrder)
    (rest : List PurchaseOrder) :
    compute_match_score t I (P :: rest) = spec_match_score t I P := by
  simp only [compute_match_score, spec_match_score]
  rw [amount_score_eq_spec, qty_score_eq_spec, price_score_eq_spec]

/-! ## Routing after MATCH_TWO_WAY

`should_checkpoint` in `src/backend/src/graph/edges.py`.  The function reads
`state.get("match_result", "")` and `state.get("match_score", 0)`; both keys
are present from the initial state onward, so an unset value is `None`, not
the `get` default.  Comparing `None < threshold` raises `TypeError`, hence
the `Except` result. -/

/-- Source: `match_status = "MATCHED" if match_result["score"] >= self.match_threshold
else "FAILED"` (`MatcherAgent.execute`, line 75). -/
def match_status (score threshold : ℚ) : String :=
  if score ≥ threshold then "MATCHED" else "FAILED"

/-- Source: `should_checkpoint`: `"checkpoint"` when `match_result == "FAILED" or
match_score < threshold`, else `"continue"`.  Python's `or` short-circuits,
so the score is compared only when the first disjunct is false. -/
def should_checkpoint (matchResult : Option String) (matchScore : Option ℚ)
    (threshold : ℚ) : Except String String :=
  let match_result := matchResult.getD ""
  if match_result = "FAILED" then .ok "checkpoint"
  else
    match matchScore with
    | none => .error "TypeError: NoneType < float"
    | some s => if s < threshold then .ok "checkpoint" else .ok "continue"

/-- The conditional-edge mapping registered for MATCH_TWO_WAY in
`create_invoice_workflow` (`graph/workflow.py`). -/
def should_checkpoint_target (label : String) : String :=
  if label = "checkpoint" then "CHECKPOINT_HITL" else "RECONCILE"

/-- Claim C2. After MATCH_TWO_WAY, `should_checkpoint` routes to checkpoint
exactly when `match_result = FAILED` or `match_score < match_threshold`, and
to continue (RECONCILE) otherwise; a score exactly equal to the threshold
produces `match_result = MATCHED` and is routed to RECONCILE. -/
theorem should_checkpoint_spec (r : String) (s threshold : ℚ) :
    (should_checkpoint (some r) (some s) threshold = .ok "checkpoint" ↔
      (r = "FAILED" ∨ s < threshold)) ∧
    (should_checkpoint (some r) (some s) threshold = .ok "continue" ↔
      ¬(r = "FAILED" ∨ s < threshold)) ∧
    match_status threshold threshold = "MATCHED" ∧
    should_checkpoint_target ((should_checkpoint (some (match_status threshold threshold))
      (some threshold) threshold).toOption.getD "") = "RECONCILE" := by
  refine ⟨?_, ?_, ?_, ?_⟩
  · unfold should_checkpoint
    by_cases hr : r = "FAILED"
    · simp [hr]
    · by_cases hs : s < threshold <;> simp [hr, hs]
  · unfold should_checkpoint
    by_cases hr : r = "FAILED"
    · simp [hr]
    · by_cases hs : s < threshold <;> simp [hr, hs]
  · simp [match_status]
  · simp [match_status, should_checkpoint, should_checkpoint_target, Except.toOption]

/-! ## APPROVE: `ApprovalAgent._apply_approval_policy`

Translated from `src/backend/src/agents/approval_agent.py`, lines 134-171,
with `AUTO_APPROVE_LIMIT = 10000.0` and `MANAGER_APPROVE_LIMIT = 50000.0`. -/

/-- The `(status, approver_id, policy)` triple returned by the local policy. -/
structure ApprovalDecision where
  status : String
  approver_id : String
  policy : String
  deriving DecidableEq

/-- Source: `_apply_approval_policy(amount, vendor)`; `risk_score` is
`vendor.get("risk_score", 0) if vendor else 0`, passed here already
resolved to a number. -/
def apply_approval_policy (amount risk_score : ℚ) : ApprovalDecision :=
  if risk_score > 1/2 then
    ⟨"APPROVED_WITH_REVIEW", "MANAGER-REVIEW", "high_risk_vendor"⟩
  else if amount ≤ 10000 then
    ⟨"AUTO_APPROVED", "SYSTEM", "auto_approve_small_amount"⟩
  else if amount ≤ 50000 then
    ⟨"APPROVED", "MGR-001", "manager_approval"⟩
  else
    ⟨"APPROVED", "EXEC-001", "executive_approval"⟩

/-- Claim C3. The local approval policy returns
`(APPROVED_WITH_REVIEW, MANAGER-REVIEW)` iff `risk_score > 0.5`;
`(AUTO_APPROVED, SYSTEM)` iff `risk_score ≤ 0.5` and `amount ≤ 10000`;
`(APPROVED, MGR-001)` iff `risk_score ≤ 0.5` and `10000 < amount ≤ 50000`;
`(APPROVED, EXEC-001)` iff `risk_score ≤ 0.5` and `amount > 50000`.  In
particular `amount = 10000` with `risk_score = 0.5` is AUTO_APPROVED (0.5 is
not escalated, 10000 is still auto-approved). -/
theorem apply_approval_policy_spec (amount risk_score : ℚ) :
    ((apply_approval_policy amount risk_score).status = "APPROVED_WITH_REVIEW" ∧
       (apply_approval_policy amount risk_score).approver_id = "MANAGER-REVIEW" ↔
      risk_score > 1/2) ∧
    ((apply_approval_policy amount risk_score).status = "AUTO_APPROVED" ∧
       (apply_approval_policy amount risk_score).approver_id = "SYSTEM" ↔
      risk_score ≤ 1/2 ∧ amount ≤ 10000) ∧
    ((apply_approval_policy amount risk_score).status = "APPROVED" ∧
       (apply_approval_policy amount risk_score).approver_id = "MGR-001" ↔
      risk_score ≤ 1/2 ∧ 10000 < amount ∧ amount ≤ 50000) ∧
    ((apply_approval_policy amount risk_score).status = "APPROVED" ∧
       (apply_approval_policy amount risk_score).approver_id = "EXEC-001" ↔
      risk_score ≤ 1/2 ∧ 50000 < amount) ∧
    apply_approval_policy 10000 (1/2) = ⟨"AUTO_APPROVED", "SYSTEM", "auto_approve_small_amount"⟩ := by
  unfold apply_approval_policy
  split_ifs with h1 h2 h3 <;> (simp_all [not_lt.1, not_le.1]; try linarith)

/-! ## Workflow engine model

A run-level embedding of `graph/workflow.py` (the compiled graph),
`graph/nodes.py` (the node wrappers) and `api/routes/invoice.py`
(`_run_workflow_async`).  Every stage agent wraps its body in
`try/except Exception` and returns `BaseAgent.handle_error`'s delta on
error, so a node wrapper never sees the exception; which branch an agent
takes is the run's nondeterminism and is modelled by an `AgentOutcome`
per stage.  Events keep the `stage_update` and `workflow_complete` arms;
`log` / `tool_call` events (emitted strictly between a stage's `started`
and `completed` events) and the free-text payloads are elided. -/

/-- The graph's nodes (`create_invoice_workflow`). -/
inductive Stage
  | intake | understand | prepare | retrieve | matchTwoWay
  | checkpointHitl | hitlDecision | reconcile | approve
  | posting | notify | complete | manualHandoff
  deriving DecidableEq

/-- Whether a stage agent's `try` body succeeds or raises (and is caught). -/
inductive AgentOutcome
  | ok
  | err
  deriving DecidableEq

/-- One entry of the append-only `error_log` (message text elided). -/
structure ErrorEntry where
  stage : String
  agent : String
  deriving DecidableEq

/-- The terminal payload.  `CompleteAgent._build_final_payload` carries an
`erp` section with `transaction_id := state.erp_txn_id` and
`posted := state.posted`; `manual_handoff_node` builds a rejection payload
with no `erp` section. -/
inductive FinalPayload
  | completePayload (erp_transaction_id : Option String) (erp_posted : Option Bool)
  | handoffPayload
  deriving DecidableEq

/-- Source: `final_payload.erp.transaction_id` (null when the payload has no `erp`
section). -/
def FinalPayload.erpTxnId : FinalPayload → Option String
  | .completePayload t _ => t
  | .handoffPayload => none

/-- The claim-relevant fields of `InvoiceWorkflowState` (`graph/state.py`).
`Option` fields start as `None`; `audit_log` and identity/timestamp fields
are elided (no claim reads them). -/
structure WfState where
  matched_pos : Option (List PurchaseOrder)
  vendor_risk_score : Option ℚ
  match_score : Option ℚ
  match_result : Option String
  human_decision : Option String
  approval_status : Option String
  approver_id : Option String
  posted : Option Bool
  erp_txn_id : Option String
  final_payload : Option FinalPayload
  hitl_checkpoint_id : Option String
  current_stage : String
  status : String
  error : Option String
  error_log : List ErrorEntry
  deriving DecidableEq

/-- Source: `create_initial_state`: every optional field `None`,
`current_stage = "START"`, `status = "RUNNING"`, empty logs. -/
def initial_state : WfState :=
  { matched_pos := none, vendor_risk_score := none, match_score := none,
    match_result := none, human_decision := none, approval_status := none,
    approver_id := none, posted := none, erp_txn_id := none,
    final_payload := none, hitl_checkpoint_id := none,
    current_stage := "START", status := "RUNNING", error := none,
    error_log := [] }

/-- A state delta returned by a node: `none` = key absent from the returned
dict.  `error_log` concatenates (its reducer is `add`). -/
structure WfDelta where
  matched_pos : Option (List PurchaseOrder) := none
  vendor_risk_score : Option ℚ := none
  match_score : Option ℚ := none
  match_result : Option String := none
  human_decision : Option String := none
  approval_status : Option String := none
  approver_id : Option String := none
  posted : Option Bool := none
  erp_txn_id : Option String := none
  final_payload : Option FinalPayload := none
  hitl_checkpoint_id : Option String := none
  current_stage : Option String := none
  status : Option String := none
  error : Option String := none
  error_log : List ErrorEntry := []

/-- LangGraph state merge: last-writer-wins on plain channels (a key present
in the delta overwrites; deltas never carry an explicit `None`), and the
`add` reducer on `error_log`. -/
def apply_delta (s : WfState) (d : WfDelta) : WfState :=
  { matched_pos := d.matched_pos <|> s.matched_pos,
    vendor_risk_score := d.vendor_risk_score <|> s.vendor_risk_score,
    match_score := d.match_score <|> s.match_score,
    match_result := d.match_result <|> s.match_result,
    human_decision := d.human_decision <|> s.human_decision,
    approval_status := d.approval_status <|> s.approval_status,
    approver_id := d.approver_id <|> s.approver_id,
    posted := d.posted <|> s.posted,
    erp_txn_id := d.erp_txn_id <|> s.erp_txn_id,
    final_payload := d.final_payload <|> s.final_payload,
    hitl_checkpoint_id := d.hitl_checkpoint_id <|> s.hitl_checkpoint_id,
    current_stage := d.current_stage.getD s.current_stage,
    status := d.status.getD s.status,
    error := d.error <|> s.error,
    error_log := s.error_log ++ d.error_log }

/-- Source: `BaseAgent.handle_error`: the delta every agent returns when its `try`
body raises — `status = FAILED`, the error string, and exactly one appended
`error_log` entry (message text elided). -/
def handle_error (agent stage : String) : WfDelta :=
  { current_stage := some stage, status := some "FAILED",
    error := some "error", error_log := [⟨stage, agent⟩] }

/-! ### Stage agent success deltas (claim-relevant fields only) -/

/-- Source: `IngestAgent.execute`, success: `raw_id`/`ingest_ts`/`validated` elided. -/
def ingest_delta : WfDelta := { current_stage := some "INTAKE" }

/-- Source: `OcrNlpAgent.execute`, success: `parsed_invoice` elided. -/
def ocr_delta : WfDelta := { current_stage := some "UNDERSTAND" }

/-- Source: `NormalizeAgent.execute`, success: of `vendor_profile` only the
`risk_score` (the value produced by enrichment, a run parameter) is kept. -/
def normalize_delta (riskScore : ℚ) : WfDelta :=
  { vendor_risk_score := some riskScore, current_stage := some "PREPARE" }

/-- Source: `ErpFetchAgent.execute`, success: the POs the ERP returned (a run
parameter); `matched_grns`/`history` elided. -/
def erp_fetch_delta (pos : List PurchaseOrder) : WfDelta :=
  { matched_pos := some pos, current_stage := some "RETRIEVE" }

/-- Source: `MatcherAgent.execute`, success (local fallback computation):
`matched_pos = state.get("matched_pos", [])` (a `None` value behaves like
`[]` inside `_compute_match`'s `if not pos`), score from `_compute_match`,
`match_result` by threshold comparison. -/
def matcher_delta (tolerancePct threshold : ℚ) (invoice : Invoice) (s : WfState) : WfDelta :=
  let matched_pos := s.matched_pos.getD []
  let score := compute_match_score tolerancePct invoice matched_pos
  { match_score := some score,
    match_result := some (match_status score threshold),
    current_stage := some "MATCH_TWO_WAY" }

/-- Source: `CheckpointAgent.execute`, success: checkpoint id (uuid elided to a
constant), `status = PAUSED`. -/
def checkpoint_delta : WfDelta :=
  { hitl_checkpoint_id := some "CHKPT", current_stage := some "CHECKPOINT_HITL",
    status := some "PAUSED" }

/-- Source: `hitl_decision_node`, resume path (`graph/nodes.py` lines 395-420):
`decision = human_input.get("decision", "unknown")`; `status` is `RUNNING`
exactly when the decision is the string `"ACCEPT"`. -/
def hitl_decision_delta (resumePayload : Option String) : WfDelta :=
  let decision := resumePayload.getD "unknown"
  { human_decision := some decision,
    current_stage := some "HITL_DECISION",
    status := some (if decision = "ACCEPT" then "RUNNING" else "REQUIRES_MANUAL_HANDLING") }

/-- Source: `ReconcileAgent.execute`, success: `accounting_entries` /
`reconciliation_report` elided. -/
def reconcile_delta : WfDelta := { current_stage := some "RECONCILE" }

/-- Source: `ApprovalAgent.execute`, success (local fallback policy):
`risk_score = vendor.get("risk_score", 0) if vendor else 0`. -/
def approval_delta (amount : ℚ) (s : WfState) : WfDelta :=
  let risk := s.vendor_risk_score.getD 0
  let decision := apply_approval_policy amount risk
  { approval_status := some decision.status,
    approver_id := some decision.approver_id,
    current_stage := some "APPROVE" }

/-- Source: `PostingAgent.execute`, success: `posted = True` and a generated ERP
transaction id (uuid modelled as a run parameter). -/
def posting_delta (erpTxn : String) : WfDelta :=
  { posted := some true, erp_txn_id := some erpTxn,
    current_stage := some "POSTING" }

/-- Source: `NotifyAgent.execute`, success: `notify_status`/`notified_parties` elided. -/
def notify_delta : WfDelta := { current_stage := some "NOTIFY" }

/-- Source: `CompleteAgent.execute`, success: `status = COMPLETED` and the final
payload assembled from the state by `_build_final_payload`. -/
def complete_delta (s : WfState) : WfDelta :=
  { final_payload := some (.completePayload s.erp_txn_id s.posted),
    current_stage := some "COMPLETE", status := some "COMPLETED" }

/-- Source: `manual_handoff_node`: rejection payload,
`status = REQUIRES_MANUAL_HANDLING`. -/
def manual_handoff_delta : WfDelta :=
  { current_stage := some "MANUAL_HANDOFF",
    status := some "REQUIRES_MANUAL_HANDLING",
    final_payload := some .handoffPayload }

/-! ### Events and routing -/

/-- The claim-relevant event arms of the event bus (§3.4): `stage_update`
with status `started`/`completed`/`failed`, and `workflow_complete`
(emitted as a `stage_update` with stage `WORKFLOW` on the wire; kept as its
own arm here, carrying `final_status`). -/
inductive WfEvent
  | stageUpdate (stage status : String)
  | workflowComplete (finalStatus : String)
  deriving DecidableEq

/-- A deterministic node wrapper emits `stage_update(started)`, runs the
agent (which catches its own errors), and emits `stage_update(completed)`;
its `except` branch — the only place `stage_update(failed)` would be
emitted — is unreachable for agent-level errors because `execute` catches
`Exception` and returns `handle_error`'s delta instead of raising. -/
def node_events (stage : String) : List WfEvent :=
  [.stageUpdate stage "started", .stageUpdate stage "completed"]

/-- Source: `after_hitl_decision` (`graph/edges.py`): `"accept"` iff the stored
`human_decision` is exactly `"ACCEPT"`. -/
def after_hitl_decision (humanDecision : Option String) : String :=
  if humanDecision.getD "" = "ACCEPT" then "accept" else "reject"

/-- The conditional-edge mapping registered for HITL_DECISION in
`create_invoice_workflow`. -/
def after_hitl_target (label : String) : String :=
  if label = "accept" then "RECONCILE" else "MANUAL_HANDOFF"

/-! ### The engine -/

/-- A whole run's inputs.  `outcome` fixes, per stage, whether the agent's
`try` body succeeds; `retrieved_pos`, `vendor_risk_score` and `erp_txn`
stand for the values the external systems return.  `tolerance_pct` and
`match_threshold` are the two configuration values (`settings.py` defaults:
5.0 and 0.90). -/
structure RunParams where
  invoice : Invoice
  retrieved_pos : List PurchaseOrder
  vendor_risk_score : ℚ
  erp_txn : String
  tolerance_pct : ℚ
  match_threshold : ℚ
  outcome : Stage → AgentOutcome

/-- How a single `ainvoke` (plus, when a resume payload is supplied, the
resuming `ainvoke`) ends. -/
inductive EngineResult
  | finished (resumed : Bool) (s : WfState)
  | paused (s : WfState)
  | crashed
  deriving DecidableEq

/-- The linear tail RECONCILE → APPROVE → POSTING → NOTIFY → COMPLETE of
the graph (unconditional edges; `complete_node` additionally emits
`workflow_complete("COMPLETED")` after its `stage_update(completed)`). -/
def run_tail (p : RunParams) (s : WfState) : List WfEvent × WfState :=
  let d1 := match p.outcome .reconcile with
    | .ok => reconcile_delta
    | .err => handle_error "ReconcileAgent" "RECONCILE"
  let s1 := apply_delta s d1
  let d2 := match p.outcome .approve with
    | .ok => approval_delta p.invoice.amount s1
    | .err => handle_error "ApprovalAgent" "APPROVE"
  let s2 := apply_delta s1 d2
  let d3 := match p.outcome .posting with
    | .ok => posting_delta p.erp_txn
    | .err => handle_error "PostingAgent" "POSTING"
  let s3 := apply_delta s2 d3
  let d4 := match p.outcome .notify with
    | .ok => notify_delta
    | .err => handle_error "NotifyAgent" "NOTIFY"
  let s4 := apply_delta s3 d4
  let d5 := match p.outcome .complete with
    | .ok => complete_delta s4
    | .err => handle_error "CompleteAgent" "COMPLETE"
  let s5 := apply_delta s4 d5
  (node_events "RECONCILE" ++ node_events "APPROVE" ++ node_events "POSTING" ++
    node_events "NOTIFY" ++ node_events "COMPLETE" ++
    [.workflowComplete "COMPLETED"], s5)

/-- One workflow execution along the compiled graph
(`create_invoice_workflow`): the linear prefix through MATCH_TWO_WAY, the
`should_checkpoint` conditional edge (whose `None < threshold` comparison
raises when the match delta carried no score — the run then aborts), the
HITL branch with its interrupt (`resume = none` ⇒ still suspended), and
the two terminal sinks. -/
def run_engine (p : RunParams) (resume : Option (Option String)) :
    List WfEvent × EngineResult :=
  let d1 := match p.outcome .intake with
    | .ok => ingest_delta
    | .err => handle_error "IngestAgent" "INTAKE"
  let s1 := apply_delta initial_state d1
  let d2 := match p.outcome .understand with
    | .ok => ocr_delta
    | .err => handle_error "OcrNlpAgent" "UNDERSTAND"
  let s2 := apply_delta s1 d2
  let d3 := match p.outcome .prepare with
    | .ok => normalize_delta p.vendor_risk_score
    | .err => handle_error "NormalizeAgent" "PREPARE"
  let s3 := apply_delta s2 d3
  let d4 := match p.outcome .retrieve with
    | .ok => erp_fetch_delta p.retrieved_pos
    | .err => handle_error "ErpFetchAgent" "RETRIEVE"
  let s4 := apply_delta s3 d4
  let d5 := match p.outcome .matchTwoWay with
    | .ok => matcher_delta p.tolerance_pct p.match_threshold p.invoice s4
    | .err => handle_error "MatcherAgent" "MATCH_TWO_WAY"
  let s5 := apply_delta s4 d5
  let preEvents := node_events "INTAKE" ++ node_events "UNDERSTAND" ++
    node_events "PREPARE" ++ node_events "RETRIEVE" ++ node_events "MATCH_TWO_WAY"
  match should_checkpoint s5.match_result s5.match_score p.match_threshold with
  | .error _ => (preEvents, .crashed)
  | .ok label =>
    if label = "checkpoint" then
      let d6 := match p.outcome .checkpointHitl with
        | .ok => checkpoint_delta
        | .err => handle_error "CheckpointAgent" "CHECKPOINT_HITL"
      let s6 := apply_delta s5 d6
      let cpEvents := preEvents ++ node_events "CHECKPOINT_HITL"
      match resume with
      | none => (cpEvents, .paused s6)
      | some payload =>
        let s7 := apply_delta s6 (hitl_decision_delta payload)
        let hitlEvents := cpEvents ++ node_events "HITL_DECISION"
        if after_hitl_decision s7.human_decision = "accept" then
          let tail := run_tail p s7
          (hitlEvents ++ tail.1, .finished true tail.2)
        else
          let s8 := apply_delta s7 manual_handoff_delta
          (hitlEvents ++ node_events "MANUAL_HANDOFF" ++
            [.workflowComplete "REQUIRES_MANUAL_HANDLING"], .finished true s8)
    else
      let tail := run_tail p s5
      (preEvents ++ tail.1, .finished false tail.2)

/-- What `_run_workflow_async` (`api/routes/invoice.py`) stores in
`_workflow_states[thread_id]` when the run ends: the final state, or the
synthetic `{"status": "FAILED", "error": ...}` entry written when `ainvoke`
raised. -/
inductive StoredResult
  | stored (s : WfState)
  | storedError
  deriving DecidableEq

/-- Source: `_run_workflow_async` around the engine: a paused first run (or one
whose `current_stage` is CHECKPOINT_HITL) returns without emitting
`workflow_complete`; a directly finished run emits one more
`workflow_complete(result.status)`; a crashed run emits
`workflow_complete("FAILED")`.  A resumed run finishes inside
`_resume_workflow_background` (`api/routes/human_review.py`), which emits
nothing. -/
def run_workflow_async (p : RunParams) (resume : Option (Option String)) :
    List WfEvent × StoredResult :=
  match run_engine p resume with
  | (evs, .crashed) => (evs ++ [.workflowComplete "FAILED"], .storedError)
  | (evs, .paused s) => (evs, .stored s)
  | (evs, .finished resumed s) =>
    if resumed then (evs, .stored s)
    else if s.current_stage = "CHECKPOINT_HITL" ∨ s.status = "PAUSED" then
      (evs, .stored s)
    else (evs ++ [.workflowComplete s.status], .stored s)

/-! ### Run-model lemmas and claim theorems -/

/-- Predicate selecting `stage_update(·, completed)` events. -/
def isStageCompletedEvt : WfEvent → Bool
  | .stageUpdate _ st => st = "completed"
  | _ => false

/-- Predicate selecting `workflow_complete` events. -/
def isWorkflowCompleteEvt : WfEvent → Bool
  | .workflowComplete _ => true
  | _ => false

/-- On the state MATCH_TWO_WAY's success delta produces, `should_checkpoint`
reduces to the plain threshold comparison. -/
theorem should_checkpoint_match_status (score th : ℚ) :
    should_checkpoint (some (match_status score th)) (some score) th =
      .ok (if score < th then "checkpoint" else "continue") := by
  unfold should_checkpoint match_status
  rcases lt_or_le score th with h | h
  · simp +decide [h, not_le.2 h]
  · simp +decide [h, not_lt.2 h]

/-- Claim C9. On resume of HITL_DECISION, the decision value is
`human_input.get("decision", "unknown")`; only the exact string `"ACCEPT"`
yields the `accept` label (RECONCILE) — every other value, including
`"REJECT"`, lowercase variants, and a payload with no decision key
(defaulting to `"unknown"`), is routed to MANUAL_HANDOFF with
`status = REQUIRES_MANUAL_HANDLING`. -/
theorem hitl_decision_routing (payload : Option String) :
    (hitl_decision_delta payload).human_decision = some (payload.getD "unknown") ∧
    (after_hitl_target (after_hitl_decision (hitl_decision_delta payload).human_decision) =
        "RECONCILE" ↔ payload = some "ACCEPT") ∧
    (after_hitl_target (after_hitl_decision (hitl_decision_delta payload).human_decision) =
        "MANUAL_HANDOFF" ↔ payload ≠ some "ACCEPT") ∧
    ((hitl_decision_delta payload).status = some "REQUIRES_MANUAL_HANDLING" ↔
        payload ≠ some "ACCEPT") ∧
    ((hitl_decision_delta payload).status = some "RUNNING" ↔ payload = some "ACCEPT") ∧
    after_hitl_target (after_hitl_decision (some "REJECT")) = "MANUAL_HANDOFF" ∧
    after_hitl_target (after_hitl_decision (some "accept")) = "MANUAL_HANDOFF" ∧
    after_hitl_target (after_hitl_decision (some "unknown")) = "MANUAL_HANDOFF" := by
  cases payload with
  | none => simp +decide [hitl_decision_delta, after_hitl_decision, after_hitl_target]
  | some d =>
    by_cases hd : d = "ACCEPT" <;>
      simp +decide [hitl_decision_delta, after_hitl_decision, after_hitl_target, hd]

/-- A run whose only failing stage is POSTING: every other agent succeeds,
the PO matches the invoice exactly, and no HITL resume is involved. -/
def c4_cex_params : RunParams :=
  { invoice := ⟨100, [⟨1, 100⟩]⟩,
    retrieved_pos := [⟨100, [⟨1, 100⟩]⟩],
    vendor_risk_score := 0,
    erp_txn := "TXN-1",
    tolerance_pct := 5,
    match_threshold := 9/10,
    outcome := fun st => match st with | .posting => .err | _ => .ok }

/-- The terminal state the engine stores for `c4_cex_params`. -/
def c4_cex_state : WfState :=
  { matched_pos := some [⟨100, [⟨1, 100⟩]⟩],
    vendor_risk_score := some 0,
    match_score := some 1,
    match_result := some "MATCHED",
    human_decision := none,
    approval_status := some "AUTO_APPROVED",
    approver_id := some "SYSTEM",
    posted := none,
    erp_txn_id := none,
    final_payload := some (.completePayload none none),
    hitl_checkpoint_id := none,
    current_stage := "COMPLETE",
    status := "COMPLETED",
    error := some "error",
    error_log := [⟨"POSTING", "PostingAgent"⟩] }

/-- Claim C4, counterexample.  A reachable terminal state violating invariant
I2 as claimed: POSTING's agent raises (its error is caught and returned as
a `status = FAILED` delta), no edge routes FAILED to END, so NOTIFY and
COMPLETE still run and COMPLETE overwrites `status` with COMPLETED — the
stored terminal state has `status = COMPLETED` but `posted ≠ true` and a
null `final_payload.erp.transaction_id`. -/
theorem completed_invariant_counterexample :
    (run_workflow_async c4_cex_params none).2 = .stored c4_cex_state ∧
    c4_cex_state.status = "COMPLETED" ∧
    c4_cex_state.posted ≠ some true ∧
    c4_cex_state.final_payload.bind FinalPayload.erpTxnId = none := by
  refine ⟨?_, by norm_num +decide [c4_cex_state, FinalPayload.erpTxnId]⟩
  norm_num +decide [c4_cex_state, run_workflow_async, run_engine, run_tail,
    c4_cex_params, ingest_delta, ocr_delta, normalize_delta, erp_fetch_delta,
    matcher_delta, checkpoint_delta, hitl_decision_delta, reconcile_delta,
    approval_delta, posting_delta, notify_delta, complete_delta,
    manual_handoff_delta, apply_delta, handle_error, initial_state,
    node_events, should_checkpoint, match_status, compute_match_score,
    amount_score, qty_score, price_score, qty_match_count, price_match_count,
    round3, round_eq, apply_approval_policy, after_hitl_decision]

/-- Claim C4, amended.  In every run in which no stage agent errors, every
terminal stored state satisfies: `status = COMPLETED` implies
`final_payload ≠ nil`, and `status = COMPLETED` holds iff `posted = true`
and the final payload's `erp.transaction_id` is non-null.  (The original
claim quantified over all reachable states; it fails when a stage errors,
because the engine has no FAILED-to-END edge — see the counterexample.) -/
theorem completed_invariant_error_free (p : RunParams) (resume : Option (Option String))
    (hok : ∀ st, p.outcome st = .ok) (s : WfState)
    (hs : (run_workflow_async p resume).2 = .stored s) :
    (s.status = "COMPLETED" → s.final_payload ≠ none) ∧
    (s.status = "COMPLETED" ↔ s.posted = some true ∧
      s.final_payload.bind FinalPayload.erpTxnId ≠ none) := by
  by_cases hlt : compute_match_score p.tolerance_pct p.invoice p.retrieved_pos <
      p.match_threshold
  · cases resume with
    | none =>
      simp +decide [run_workflow_async, run_engine, hok, ingest_delta, ocr_delta,
        normalize_delta, erp_fetch_delta, matcher_delta, checkpoint_delta,
        apply_delta, initial_state, node_events, should_checkpoint_match_status,
        hlt] at hs
      subst hs
      simp +decide
    | some payload =>
      by_cases hacc : payload.getD "unknown" = "ACCEPT" <;>
      · simp +decide [run_workflow_async, run_engine, run_tail, hok, ingest_delta,
          ocr_delta, normalize_delta, erp_fetch_delta, matcher_delta,
          checkpoint_delta, hitl_decision_delta, reconcile_delta, approval_delta,
          posting_delta, notify_delta, complete_delta, manual_handoff_delta,
          apply_delta, initial_state, node_events, should_checkpoint_match_status,
          after_hitl_decision, hlt, hacc] at hs
        subst hs
        simp +decide [FinalPayload.erpTxnId]
  · simp +decide [run_workflow_async, run_engine, run_tail, hok, ingest_delta,
      ocr_delta, normalize_delta, erp_fetch_delta, matcher_delta,
      checkpoint_delta, hitl_decision_delta, reconcile_delta, approval_delta,
      posting_delta, notify_delta, complete_delta, manual_handoff_delta,
      apply_delta, initial_state, node_events, should_checkpoint_match_status,
      after_hitl_decision, hlt] at hs
    subst hs
    simp +decide [FinalPayload.erpTxnId]

/-- An error-free, exactly-matching run used to witness the amended C4. -/
def c4_wit_params : RunParams :=
  { invoice := ⟨100, [⟨1, 100⟩]⟩,
    retrieved_pos := [⟨100, [⟨1, 100⟩]⟩],
    vendor_risk_score := 0,
    erp_txn := "TXN-1",
    tolerance_pct := 5,
    match_threshold := 9/10,
    outcome := fun _ => .ok }

/-- The terminal state stored for `c4_wit_params`. -/
def c4_wit_state : WfState :=
  { matched_pos := some [⟨100, [⟨1, 100⟩]⟩],
    vendor_risk_score := some 0,
    match_score := some 1,
    match_result := some "MATCHED",
    human_decision := none,
    approval_status := some "AUTO_APPROVED",
    approver_id := some "SYSTEM",
    posted := some true,
    erp_txn_id := some "TXN-1",
    final_payload := some (.completePayload (some "TXN-1") (some true)),
    hitl_checkpoint_id := none,
    current_stage := "COMPLETE",
    status := "COMPLETED",
    error := none,
    error_log := [] }

/-- Witness for `completed_invariant_error_free` at a concrete error-free run. -/
theorem completed_invariant_error_free_witness :
    (c4_wit_state.status = "COMPLETED" → c4_wit_state.final_payload ≠ none) ∧
    (c4_wit_state.status = "COMPLETED" ↔ c4_wit_state.posted = some true ∧
      c4_wit_state.final_payload.bind FinalPayload.erpTxnId ≠ none) :=
  completed_invariant_error_free c4_wit_params none (fun _ => rfl) c4_wit_state
    (by norm_num +decide [c4_wit_state, run_workflow_async, run_engine, run_tail,
      c4_wit_params, ingest_delta, ocr_delta, normalize_delta, erp_fetch_delta,
      matcher_delta, checkpoint_delta, hitl_decision_delta, reconcile_delta,
      approval_delta, posting_delta, notify_delta, complete_delta,
      manual_handoff_delta, apply_delta, handle_error, initial_state,
      node_events, should_checkpoint, match_status, compute_match_score,
      amount_score, qty_score, price_score, qty_match_count, price_match_count,
      round3, round_eq, apply_approval_policy, after_hitl_decision])

/-- A run in which every agent up to MATCH_TWO_WAY succeeds and
MATCH_TWO_WAY's agent raises. -/
def c5_cex_params : RunParams :=
  { invoice := ⟨100, [⟨1, 100⟩]⟩,
    retrieved_pos := [⟨100, [⟨1, 100⟩]⟩],
    vendor_risk_score := 0,
    erp_txn := "TXN-1",
    tolerance_pct := 5,
    match_threshold := 9/10,
    outcome := fun st => match st with | .matchTwoWay => .err | _ => .ok }

/-- Claim C5, counterexample.  When MATCH_TWO_WAY's execution raises, the
node emits `stage_update(MATCH_TWO_WAY, completed)` — the claimed
`stage_update(MATCH_TWO_WAY, failed)` is never emitted (the agent catches
the exception before the node's `except` branch can fire). -/
theorem stage_error_events_counterexample :
    WfEvent.stageUpdate "MATCH_TWO_WAY" "completed" ∈
      (run_workflow_async c5_cex_params none).1 ∧
    WfEvent.stageUpdate "MATCH_TWO_WAY" "failed" ∉
      (run_workflow_async c5_cex_params none).1 := by
  norm_num +decide [run_workflow_async, run_engine, run_tail, c5_cex_params,
    ingest_delta, ocr_delta, normalize_delta, erp_fetch_delta, matcher_delta,
    checkpoint_delta, hitl_decision_delta, reconcile_delta, approval_delta,
    posting_delta, notify_delta, complete_delta, manual_handoff_delta,
    apply_delta, handle_error, initial_state, node_events, should_checkpoint,
    match_status]

/-- Claim C5, amended.  In a run whose pre-MATCH stages succeed and whose
MATCH_TWO_WAY agent raises: the agent catches the error and returns a state
delta with `status = FAILED` and exactly one appended `error_log` entry
(this part of the claim holds), but the node emits
`stage_update(MATCH_TWO_WAY, completed)` and no
`stage_update(MATCH_TWO_WAY, failed)`; the engine does not route to END via
the graph — instead the `should_checkpoint` edge compares the absent
`match_score` (`None`) with the threshold and the run aborts, so no
downstream stage runs, and the background runner emits a final
`workflow_complete(FAILED)` and stores a FAILED result. -/
theorem stage_error_behavior (p : RunParams) (resume : Option (Option String))
    (hpre : ∀ st, st ≠ Stage.matchTwoWay → p.outcome st = .ok)
    (hm : p.outcome .matchTwoWay = .err) :
    (handle_error "MatcherAgent" "MATCH_TWO_WAY").status = some "FAILED" ∧
    (handle_error "MatcherAgent" "MATCH_TWO_WAY").error_log.length = 1 ∧
    WfEvent.stageUpdate "MATCH_TWO_WAY" "completed" ∈ (run_workflow_async p resume).1 ∧
    WfEvent.stageUpdate "MATCH_TWO_WAY" "failed" ∉ (run_workflow_async p resume).1 ∧
    (run_workflow_async p resume).2 = .storedError ∧
    (∀ st, WfEvent.stageUpdate "CHECKPOINT_HITL" st ∉ (run_workflow_async p resume).1) ∧
    (∀ st, WfEvent.stageUpdate "RECONCILE" st ∉ (run_workflow_async p resume).1) ∧
    (run_workflow_async p resume).1.getLast? = some (.workflowComplete "FAILED") := by
  have h1 := hpre .intake (by simp)
  have h2 := hpre .understand (by simp)
  have h3 := hpre .prepare (by simp)
  have h4 := hpre .retrieve (by simp)
  simp +decide [run_workflow_async, run_engine, h1, h2, h3, h4, hm,
    ingest_delta, ocr_delta, normalize_delta, erp_fetch_delta, handle_error,
    apply_delta, initial_state, node_events, should_checkpoint]

/-- Witness for `stage_error_behavior` at the concrete erroring run. -/
theorem stage_error_behavior_witness :
    (handle_error "MatcherAgent" "MATCH_TWO_WAY").status = some "FAILED" ∧
    (handle_error "MatcherAgent" "MATCH_TWO_WAY").error_log.length = 1 ∧
    WfEvent.stageUpdate "MATCH_TWO_WAY" "completed" ∈
      (run_workflow_async c5_cex_params none).1 ∧
    WfEvent.stageUpdate "MATCH_TWO_WAY" "failed" ∉
      (run_workflow_async c5_cex_params none).1 ∧
    (run_workflow_async c5_cex_params none).2 = .storedError ∧
    (∀ st, WfEvent.stageUpdate "CHECKPOINT_HITL" st ∉
      (run_workflow_async c5_cex_params none).1) ∧
    (∀ st, WfEvent.stageUpdate "RECONCILE" st ∉
      (run_workflow_async c5_cex_params none).1) ∧
    (run_workflow_async c5_cex_params none).1.getLast? =
      some (.workflowComplete "FAILED") :=
  stage_error_behavior c5_cex_params none
    (by intro st hst; cases st <;> first | rfl | exact absurd rfl hst)
    rfl

/-- An error-free exactly-matching run (score 1 ≥ threshold 0.9), no HITL. -/
def c6_cex_params : RunParams :=
  { invoice := ⟨100, [⟨1, 100⟩]⟩,
    retrieved_pos := [⟨100, [⟨1, 100⟩]⟩],
    vendor_risk_score := 0,
    erp_txn := "TXN-1",
    tolerance_pct := 5,
    match_threshold := 9/10,
    outcome := fun _ => .ok }

/-- Claim C6, counterexample.  A completing run (accepted invoice, PO matching
within tolerance) emits TWO `workflow_complete` events, not exactly one:
`complete_node` emits one, and `_run_workflow_async` emits another after
`ainvoke` returns. -/
theorem workflow_complete_count_counterexample :
    (run_workflow_async c6_cex_params none).1.countP isWorkflowCompleteEvt = 2 ∧
    ¬ (run_workflow_async c6_cex_params none).1.countP isWorkflowCompleteEvt = 1 := by
  norm_num +decide [run_workflow_async, run_engine, run_tail, c6_cex_params,
    ingest_delta, ocr_delta, normalize_delta, erp_fetch_delta, matcher_delta,
    checkpoint_delta, hitl_decision_delta, reconcile_delta, approval_delta,
    posting_delta, notify_delta, complete_delta, manual_handoff_delta,
    apply_delta, handle_error, initial_state, node_events, should_checkpoint,
    match_status, compute_match_score, amount_score, qty_score, price_score,
    qty_match_count, price_match_count, round3, round_eq,
    apply_approval_policy, after_hitl_decision, isWorkflowCompleteEvt,
    List.countP, List.countP.go]

/-- Claim C6, amended.  For every error-free run whose match score reaches the
threshold: the `stage_completed` subsequence is exactly INTAKE, UNDERSTAND,
PREPARE, RETRIEVE, MATCH_TWO_WAY, RECONCILE, APPROVE, POSTING, NOTIFY,
COMPLETE in that order; the run emits exactly TWO `workflow_complete`
events (one from `complete_node`, one from the background runner), both
carrying `final_status = COMPLETED`; and the last event emitted for the
thread is a `workflow_complete(COMPLETED)`. -/
theorem workflow_complete_events (p : RunParams)
    (hok : ∀ st, p.outcome st = .ok)
    (hscore : ¬ compute_match_score p.tolerance_pct p.invoice p.retrieved_pos <
      p.match_threshold) :
    (run_workflow_async p none).1.filter isStageCompletedEvt =
      ["INTAKE", "UNDERSTAND", "PREPARE", "RETRIEVE", "MATCH_TWO_WAY",
       "RECONCILE", "APPROVE", "POSTING", "NOTIFY", "COMPLETE"].map
        (fun st => .stageUpdate st "completed") ∧
    (run_workflow_async p none).1.filter isWorkflowCompleteEvt =
      [.workflowComplete "COMPLETED", .workflowComplete "COMPLETED"] ∧
    (run_workflow_async p none).1.getLast? = some (.workflowComplete "COMPLETED") := by
  simp +decide [run_workflow_async, run_engine, run_tail, hok, ingest_delta,
    ocr_delta, normalize_delta, erp_fetch_delta, matcher_delta,
    checkpoint_delta, hitl_decision_delta, reconcile_delta, approval_delta,
    posting_delta, notify_delta, complete_delta, manual_handoff_delta,
    apply_delta, handle_error, initial_state, node_events,
    should_checkpoint_match_status, hscore, isStageCompletedEvt,
    isWorkflowCompleteEvt]

/-- Witness for `workflow_complete_events` at the concrete matched run. -/
theorem workflow_complete_events_witness :
    (run_workflow_async c6_cex_params none).1.filter isStageCompletedEvt =
      ["INTAKE", "UNDERSTAND", "PREPARE", "RETRIEVE", "MATCH_TWO_WAY",
       "RECONCILE", "APPROVE", "POSTING", "NOTIFY", "COMPLETE"].map
        (fun st => .stageUpdate st "completed") ∧
    (run_workflow_async c6_cex_params none).1.filter isWorkflowCompleteEvt =
      [.workflowComplete "COMPLETED", .workflowComplete "COMPLETED"] ∧
    (run_workflow_async c6_cex_params none).1.getLast? =
      some (.workflowComplete "COMPLETED") :=
  workflow_complete_events c6_cex_params (fun _ => rfl)
    (by norm_num [c6_cex_params, compute_match_score, amount_score, qty_score,
      price_score, qty_match_count, price_match_count, round3, round_eq])

/-! ## Event bus: `WorkflowEventEmitter.subscribe`

Translated from `src/backend/src/services/event_emitter.py`, lines 172-236.
The subscribe generator inspects only an event's `type` and `status` keys;
other fields (thread_id, data, timestamps) are elided.  The live portion of
the stream is modelled as the list of live events actually delivered, in
emission order; heartbeats (emitted only while no real event arrives) and
consumer detachment are outside the claims. -/

/-- An event as the subscribe loop sees it: its `type` and, for
`stage_update` events, its `status`. -/
structure BusEvent where
  type : String
  status : String
  deriving DecidableEq

/-- The loop's completion test:
`event.get("type") == "stage_update" and event.get("status") == "workflow_complete"`. -/
def is_workflow_complete_event (e : BusEvent) : Bool :=
  e.type = "stage_update" && e.status = "workflow_complete"

/-- The synthetic welcome event (`{"type": "connected", ...}`; it has no
`status` key, modelled as the empty string). -/
def connected_event : BusEvent := ⟨"connected", ""⟩

/-- The live loop: each queued event is yielded; after yielding a
`workflow_complete` the loop breaks. -/
def take_until_complete : List BusEvent → List BusEvent
  | [] => []
  | e :: rest =>
      e :: (if is_workflow_complete_event e then [] else take_until_complete rest)

/-- Source: `WorkflowEventEmitter.subscribe`: replay the recorded history when
`include_history` (noting whether a `workflow_complete` was replayed), then
yield the `connected` event, then — unless the workflow was already
complete — stream live events until a `workflow_complete` arrives. -/
def subscribe (history live : List BusEvent) (includeHistory : Bool) : List BusEvent :=
  let replayed := if includeHistory then history else []
  let workflow_already_complete := replayed.any is_workflow_complete_event
  replayed ++ [connected_event] ++
    (if workflow_already_complete then [] else take_until_complete live)

theorem take_until_complete_initial (live : List BusEvent) :
    take_until_complete live <+: live := by
  induction live with
  | nil => simp [take_until_complete]
  | cons e rest ih =>
    rw [take_until_complete]
    by_cases h : is_workflow_complete_event e
    · simp [h]
    · obtain ⟨t, ht⟩ := ih
      exact ⟨t, by simp [h, ht]⟩

/-- Claim C7. A subscriber created with `include_history = true` receives the
entire current history in insertion order (the history is a prefix of the
stream), then the synthetic `connected` event (at position `|history|`),
then the subsequent live events in emission order (a prefix of the live
sequence, cut at the first `workflow_complete`); when the history already
contains a `workflow_complete`, the stream ends right after `connected`,
with no live events. -/
theorem subscribe_spec (history live : List BusEvent) :
    subscribe history live true =
      history ++ [connected_event] ++
        (if history.any is_workflow_complete_event then []
         else take_until_complete live) ∧
    history <+: subscribe history live true ∧
    (subscribe history live true)[history.length]? = some connected_event ∧
    take_until_complete live <+: live := by
  have hdef : subscribe history live true =
      history ++ [connected_event] ++
        (if history.any is_workflow_complete_event then []
         else take_until_complete live) := rfl
  refine ⟨hdef, ?_, ?_, take_until_complete_initial live⟩
  · exact ⟨[connected_event] ++
      (if history.any is_workflow_complete_event then []
       else take_until_complete live), by rw [hdef, List.append_assoc]⟩
  · rw [hdef, List.append_assoc,
      List.getElem?_append_right (le_refl history.length)]
    simp

/-! ## API endpoints

`GET /invoice/status/{thread_id}` (`api/routes/invoice.py`),
`GET /human-review/{checkpoint_id}` and `POST /human-review/decision`
(`api/routes/human_review.py`).  The in-memory `_workflow_states` dict and
the `HumanReviewQueue` table are modelled as association lists; responses
are modelled by their HTTP status code (200 for a success body, 404 from
`HTTPException(status_code=404)`). -/

/-- Source: `dict.get(key)`: the first binding for the key, if any. -/
def dict_get {α : Type} (m : List (String × α)) (k : String) : Option α :=
  (m.find? fun kv => kv.1 = k).map fun kv => kv.2

/-- A `HumanReviewQueue` row (columns the decision endpoint touches;
`reviewed_at` records only whether the timestamp was set). -/
structure ReviewRecord where
  checkpoint_id : String
  thread_id : String
  status : String
  decision : Option String
  reviewer_id : Option String
  reviewer_notes : Option String
  reviewed_at : Bool
  deriving DecidableEq

/-- The `ReviewDecision` request body. -/
structure DecisionRequest where
  thread_id : String
  checkpoint_id : String
  decision : String
  reviewer_id : String
  notes : Option String
  deriving DecidableEq

/-- Source: `GET /invoice/status/{thread_id}`: 404 when `_workflow_states` has no
entry for the thread, else the status snapshot (200). -/
def get_invoice_status (workflows : List (String × StoredResult))
    (threadId : String) : Nat :=
  match dict_get workflows threadId with
  | none => 404
  | some _ => 200

/-- Source: `GET /human-review/{checkpoint_id}`: 404 when no review row matches the
checkpoint id, else the review detail (200). -/
def get_review_detail (queue : List ReviewRecord) (checkpointId : String) : Nat :=
  match queue.find? fun r => r.checkpoint_id = checkpointId with
  | none => 404
  | some _ => 200

/-- The mutation `submit_decision` applies to a found review row:
`status = REVIEWED`, decision, reviewer id, notes, `reviewed_at` set. -/
def mark_reviewed (req : DecisionRequest) (r : ReviewRecord) : ReviewRecord :=
  { r with
    status := "REVIEWED"
    decision := some req.decision
    reviewer_id := some req.reviewer_id
    reviewer_notes := req.notes
    reviewed_at := true }

/-- Source: `db.query(...).filter(checkpoint_id == ...).first()` + in-place update:
only the first matching row is mutated; no match leaves the table unchanged. -/
def update_review (req : DecisionRequest) : List ReviewRecord → List ReviewRecord
  | [] => []
  | r :: rest =>
      if r.checkpoint_id = req.checkpoint_id then mark_reviewed req r :: rest
      else r :: update_review req rest

/-- Source: `POST /human-review/decision`: first updates and commits the review row
(when the checkpoint id matches one), then looks up the thread in
`_workflow_states` — 404 if absent, 200 (decision accepted, resume
scheduled) otherwise.  The result is the response code paired with the
review table as left behind. -/
def submit_decision (queue : List ReviewRecord)
    (workflows : List (String × StoredResult)) (req : DecisionRequest) :
    Nat × List ReviewRecord :=
  let queue' := update_review req queue
  match dict_get workflows req.thread_id with
  | none => (404, queue')
  | some _ => (200, queue')

/-- Claim C8, counterexample.  `POST /human-review/decision` with an unknown
`checkpoint_id` but a known `thread_id` returns 200, not the claimed 404:
the endpoint silently skips the review-row update and still schedules the
resume. -/
theorem unknown_id_404_counterexample :
    (submit_decision [] [("T1", .storedError)]
      ⟨"T1", "CK-UNKNOWN", "ACCEPT", "rev-1", none⟩).1 = 200 ∧
    (submit_decision [] [("T1", .storedError)]
      ⟨"T1", "CK-UNKNOWN", "ACCEPT", "rev-1", none⟩).1 ≠ 404 ∧
    (([] : List ReviewRecord).find? fun r => r.checkpoint_id = "CK-UNKNOWN") = none := by
  refine ⟨rfl, by decide, rfl⟩

/-- Claim C8, amended.  The GET endpoints return 404 exactly when the id is
unknown — `GET /invoice/status/{thread_id}` for an unknown thread and
`GET /human-review/{checkpoint_id}` for an unknown checkpoint — and
`POST /human-review/decision` returns 404 exactly when the `thread_id` is
unknown; an unknown `checkpoint_id` alone does not produce a 404 there. -/
theorem unknown_id_404 (workflows : List (String × StoredResult))
    (queue : List ReviewRecord) (tid cid : String) (req : DecisionRequest) :
    (get_invoice_status workflows tid = 404 ↔ dict_get workflows tid = none) ∧
    (get_review_detail queue cid = 404 ↔
      (queue.find? fun r => r.checkpoint_id = cid) = none) ∧
    ((submit_decision queue workflows req).1 = 404 ↔
      dict_get workflows req.thread_id = none) := by
  refine ⟨?_, ?_, ?_⟩
  · unfold get_invoice_status
    cases dict_get workflows tid <;> simp
  · unfold get_review_detail
    cases queue.find? fun r => r.checkpoint_id = cid <;> simp
  · unfold submit_decision
    cases dict_get workflows req.thread_id <;> simp

theorem find?_update_review (req : DecisionRequest) (queue : List ReviewRecord)
    (r : ReviewRecord)
    (h : (queue.find? fun x => x.checkpoint_id = req.checkpoint_id) = some r) :
    ((update_review req queue).find? fun x => x.checkpoint_id = req.checkpoint_id) =
      some (mark_reviewed req r) := by
  induction queue with
  | nil => simp at h
  | cons q rest ih =>
    by_cases hq : q.checkpoint_id = req.checkpoint_id
    · rw [List.find?_cons_of_pos _ (by simp [hq])] at h
      cases h
      simp only [update_review, if_pos hq]
      exact List.find?_cons_of_pos _ (by simp [mark_reviewed, hq])
    · rw [List.find?_cons_of_neg _ (by simp [hq])] at h
      simp only [update_review, if_neg hq]
      rw [List.find?_cons_of_neg _ (by simp [hq])]
      exact ih h

/-- Claim C10. For a decision request naming an existing `checkpoint_id` but
an unknown `thread_id`, `POST /human-review/decision` answers 404, yet the
review row has already been updated and committed to `REVIEWED` with the
request's decision, reviewer id, notes and a `reviewed_at` timestamp —
the 404 is not atomic with respect to the review queue. -/
theorem decision_mutates_before_404 (queue : List ReviewRecord)
    (workflows : List (String × StoredResult)) (req : DecisionRequest)
    (r : ReviewRecord)
    (hr : (queue.find? fun x => x.checkpoint_id = req.checkpoint_id) = some r)
    (ht : dict_get workflows req.thread_id = none) :
    (submit_decision queue workflows req).1 = 404 ∧
    ((submit_decision queue workflows req).2.find?
        fun x => x.checkpoint_id = req.checkpoint_id) = some (mark_reviewed req r) ∧
    (mark_reviewed req r).status = "REVIEWED" ∧
    (mark_reviewed req r).decision = some req.decision ∧
    (mark_reviewed req r).reviewer_id = some req.reviewer_id ∧
    (mark_reviewed req r).reviewer_notes = req.notes ∧
    (mark_reviewed req r).reviewed_at = true := by
  unfold submit_decision
  rw [ht]
  exact ⟨rfl, find?_update_review req queue r hr, rfl, rfl, rfl, rfl, rfl⟩

/-- Witness for `decision_mutates_before_404`: a pending review for
checkpoint CK-1 whose workflow thread is not tracked. -/
theorem decision_mutates_before_404_witness :
    (submit_decision [⟨"CK-1", "T9", "PENDING", none, none, none, false⟩] []
      ⟨"T-GONE", "CK-1", "REJECT", "rev-2", some "notes"⟩).1 = 404 ∧
    ((submit_decision [⟨"CK-1", "T9", "PENDING", none, none, none, false⟩] []
      ⟨"T-GONE", "CK-1", "REJECT", "rev-2", some "notes"⟩).2.find?
        fun x => x.checkpoint_id = "CK-1") =
      some (mark_reviewed ⟨"T-GONE", "CK-1", "REJECT", "rev-2", some "notes"⟩
        ⟨"CK-1", "T9", "PENDING", none, none, none, false⟩) ∧
    (mark_reviewed ⟨"T-GONE", "CK-1", "REJECT", "rev-2", some "notes"⟩
        ⟨"CK-1", "T9", "PENDING", none, none, none, false⟩).status = "REVIEWED" ∧
    (mark_reviewed ⟨"T-GONE", "CK-1", "REJECT", "rev-2", some "notes"⟩
        ⟨"CK-1", "T9", "PENDING", none, none, none, false⟩).decision = some "REJECT" ∧
    (mark_reviewed ⟨"T-GONE", "CK-1", "REJECT", "rev-2", some "notes"⟩
        ⟨"CK-1", "T9", "PENDING", none, none, none, false⟩).reviewer_id = some "rev-2" ∧
    (mark_reviewed ⟨"T-GONE", "CK-1", "REJECT", "rev-2", some "notes"⟩
        ⟨"CK-1", "T9", "PENDING", none, none, none, false⟩).reviewer_notes = some "notes" ∧
    (mark_reviewed ⟨"T-GONE", "CK-1", "REJECT", "rev-2", some "notes"⟩
        ⟨"CK-1", "T9", "PENDING", none, none, none, false⟩).reviewed_at = true :=
  decision_mutates_before_404 _ _ _ _ (by decide) rfl

end InvoiceWorkflow
